import Mathlib

/-!
Shallow embedding of `src/hd44780/hd44780.py` (class `HD44780`), the software
model of the Hitachi HD44780 LCD controller.  Pure-graphics state (pixel
geometry, colors, the pygame surface) is out of scope; the controller state
(DDRAM, row-visible-address table, DDRAM pointer, flags, the character grid)
is embedded faithfully.  Python integers are embedded as `Int`: Python's `%`
with a positive divisor agrees with `Int.emod`, Python's `>>` (floor shift)
with `Int.fdiv` by a power of two, and `& 0x1` / `& 0xFF` with `emod 2` /
`emod 256`.
-/

/-- A Python value that can flow into `write_data` / sit in a DDRAM cell:
either an `int` or a `str`.  (`write_data` subscripts its argument, so the
distinction is observable: subscripting an `int` raises `TypeError`.) -/
inductive PyVal where
  | int (n : Int)
  | str (s : String)
deriving DecidableEq, Repr

/-- Python exceptions raised by the embedded code: `TypeError` (subscripting
an `int`, or `str & int`), `IndexError` (subscripting an empty string), and
the `Warning("Illegal Instruction")` raised by `command`. -/
inductive PyErr where
  | typeError
  | indexError
  | illegalInstruction
deriving DecidableEq, Repr

/-- Bit `i` of a Python int as computed by `(db_ >> i) & 0x1`:
arithmetic right shift is floor division by `2^i`, and `& 1` is `emod 2`. -/
def pybit (n : Int) (i : Nat) : Int :=
  (Int.fdiv n (2 ^ i)) % 2

/-- Controller state of an `HD44780` instance (the fields of `__init__` that
the instruction set touches).  `fs_flags` bundles the three attributes
`_eight_bit_mode`, `_two_lines`, `_font_5x10` that exist only after the first
`function_set` call (`none` before). -/
structure HD44780 where
  segments : Nat
  lines : Nat
  ddram : List PyVal
  row_visible_address : List Int
  ddram_pointer : Int
  display_on : Bool
  cursor_ptr : Int × Int
  cursor_active : Bool
  cursor_visible : Bool
  cursor_blinking : Bool
  entry_mode_dir : Bool
  entry_mode_shift : Bool
  grid : List (List (List Int))
  fs_flags : Option (Bool × Bool × Bool)
deriving DecidableEq, Repr

namespace HD44780

/-- The CGROM dictionary: character code → 8-row glyph pattern, transcribed
entry by entry from the Python `self.cgrom` literal (codes 0x20–0x7F). -/
def cgrom : List (Int × List Int) := [
  (0x20, [0x00, 0x00, 0x00, 0x00, 0x00, 0x00, 0x00, 0x00]),
  (0x21, [0x04, 0x04, 0x04, 0x04, 0x00, 0x04, 0x00, 0x00]),
  (0x22, [0x0A, 0x0A, 0x0A, 0x00, 0x00, 0x00, 0x00, 0x00]),
  (0x23, [0x0A, 0x0A, 0x1F, 0x0A, 0x1F, 0x0A, 0x0A, 0x00]),
  (0x24, [0x04, 0x0F, 0x14, 0x0E, 0x05, 0x1E, 0x04, 0x00]),
  (0x25, [0x18, 0x19, 0x02, 0x04, 0x08, 0x13, 0x03, 0x00]),
  (0x26, [0x0C, 0x12, 0x0C, 0x16, 0x19, 0x16, 0x0D, 0x00]),
  (0x27, [0x06, 0x06, 0x03, 0x00, 0x00, 0x00, 0x00, 0x00]),
  (0x28, [0x01, 0x02, 0x04, 0x04, 0x04, 0x02, 0x01, 0x00]),
  (0x29, [0x04, 0x02, 0x01, 0x01, 0x01, 0x02, 0x04, 0x00]),
  (0x2A, [0x00, 0x04, 0x15, 0x0E, 0x0E, 0x15, 0x04, 0x00]),
  (0x2B, [0x00, 0x04, 0x04, 0x1F, 0x04, 0x04, 0x00, 0x00]),
  (0x2C, [0x00, 0x00, 0x00, 0x00, 0x04, 0x04, 0x02, 0x00]),
  (0x2D, [0x00, 0x00, 0x00, 0x1F, 0x00, 0x00, 0x00, 0x00]),
  (0x2E, [0x00, 0x00, 0x00, 0x00, 0x04, 0x00, 0x00, 0x00]),
  (0x2F, [0x00, 0x01, 0x02, 0x04, 0x08, 0x10, 0x00, 0x00]),
  (0x30, [0x0E, 0x11, 0x13, 0x15, 0x19, 0x11, 0x0E, 0x00]),
  (0x31, [0x04, 0x0C, 0x04, 0x04, 0x04, 0x04, 0x0E, 0x00]),
  (0x32, [0x0E, 0x11, 0x10, 0x0C, 0x02, 0x11, 0x1F, 0x00]),
  (0x33, [0x1F, 0x08, 0x04, 0x04, 0x04, 0x11, 0x0E, 0x00]),
  (0x34, [0x02, 0x06, 0x0A, 0x12, 0x1F, 0x02, 0x02, 0x00]),
  (0x35, [0x1F, 0x01, 0x0F, 0x10, 0x10, 0x11, 0x0E, 0x00]),
  (0x36, [0x0C, 0x02, 0x01, 0x0F, 0x11, 0x11, 0x0E, 0x00]),
  (0x37, [0x1F, 0x11, 0x10, 0x08, 0x04, 0x04, 0x04, 0x00]),
  (0x38, [0x0E, 0x11, 0x11, 0x0E, 0x11, 0x11, 0x0E, 0x00]),
  (0x39, [0x0E, 0x11, 0x11, 0x1E, 0x10, 0x08, 0x06, 0x00]),
  (0x3A, [0x00, 0x04, 0x00, 0x00, 0x00, 0x04, 0x00, 0x00]),
  (0x3B, [0x00, 0x04, 0x00, 0x00, 0x00, 0x04, 0x04, 0x00]),
  (0x3C, [0x02, 0x04, 0x08, 0x10, 0x08, 0x04, 0x02, 0x00]),
  (0x3D, [0x00, 0x00, 0x1F, 0x00, 0x1F, 0x00, 0x00, 0x00]),
  (0x3E, [0x08, 0x04, 0x02, 0x01, 0x02, 0x04, 0x08, 0x00]),
  (0x3F, [0x0E, 0x11, 0x10, 0x08, 0x04, 0x00, 0x04, 0x00]),
  (0x40, [0x0E, 0x11, 0x15, 0x15, 0x1D, 0x01, 0x0E, 0x00]),
  (0x41, [0x0E, 0x11, 0x11, 0x1F, 0x11, 0x11, 0x11, 0x00]),
  (0x42, [0x0F, 0x11, 0x11, 0x0F, 0x11, 0x11, 0x0F, 0x00]),
  (0x43, [0x0E, 0x11, 0x01, 0x01, 0x01, 0x11, 0x0E, 0x00]),
  (0x44, [0x07, 0x09, 0x11, 0x11, 0x11, 0x09, 0x07, 0x00]),
  (0x45, [0x1F, 0x10, 0x10, 0x1C, 0x10, 0x10, 0x1F, 0x00]),
  (0x46, [0x1F, 0x10, 0x10, 0x1C, 0x10, 0x10, 0x10, 0x00]),
  (0x47, [0x0E, 0x11, 0x10, 0x17, 0x11, 0x11, 0x0F, 0x00]),
  (0x48, [0x11, 0x11, 0x11, 0x1F, 0x11, 0x11, 0x11, 0x00]),
  (0x49, [0x0E, 0x04, 0x04, 0x04, 0x04, 0x04, 0x0E, 0x00]),
  (0x4A, [0x07, 0x02, 0x02, 0x02, 0x12, 0x12, 0x0C, 0x00]),
  (0x4B, [0x11, 0x12, 0x14, 0x18, 0x14, 0x12, 0x11, 0x00]),
  (0x4C, [0x10, 0x10, 0x10, 0x10, 0x10, 0x10, 0x1F, 0x00]),
  (0x4D, [0x11, 0x1B, 0x15, 0x15, 0x11, 0x11, 0x11, 0x00]),
  (0x4E, [0x11, 0x19, 0x15, 0x13, 0x11, 0x11, 0x11, 0x00]),
  (0x4F, [0x0E, 0x11, 0x11, 0x11, 0x11, 0x11, 0x0E, 0x00]),
  (0x50, [0x0F, 0x11, 0x11, 0x0F, 0x10, 0x10, 0x10, 0x00]),
  (0x51, [0x0E, 0x11, 0x11, 0x11, 0x15, 0x12, 0x0D, 0x00]),
  (0x52, [0x0F, 0x11, 0x11, 0x0F, 0x12, 0x11, 0x11, 0x00]),
  (0x53, [0x0F, 0x10, 0x10, 0x0E, 0x01, 0x11, 0x0E, 0x00]),
  (0x54, [0x1F, 0x04, 0x04, 0x04, 0x04, 0x04, 0x04, 0x00]),
  (0x55, [0x11, 0x11, 0x11, 0x11, 0x11, 0x11, 0x0E, 0x00]),
  (0x56, [0x11, 0x11, 0x11, 0x11, 0x11, 0x0A, 0x04, 0x00]),
  (0x57, [0x11, 0x11, 0x11, 0x15, 0x15, 0x15, 0x0A, 0x00]),
  (0x58, [0x11, 0x11, 0x0A, 0x04, 0x0A, 0x11, 0x11, 0x00]),
  (0x59, [0x11, 0x11, 0x0A, 0x04, 0x04, 0x04, 0x04, 0x00]),
  (0x5A, [0x1F, 0x01, 0x02, 0x04, 0x08, 0x10, 0x1F, 0x00]),
  (0x5B, [0x0E, 0x08, 0x08, 0x08, 0x08, 0x08, 0x0E, 0x00]),
  (0x5C, [0x00, 0x10, 0x08, 0x04, 0x02, 0x01, 0x00, 0x00]),
  (0x5D, [0x0E, 0x02, 0x02, 0x02, 0x02, 0x02, 0x0E, 0x00]),
  (0x5E, [0x04, 0x0A, 0x11, 0x00, 0x00, 0x00, 0x00, 0x00]),
  (0x5F, [0x00, 0x00, 0x00, 0x00, 0x00, 0x00, 0x00, 0x1F]),
  (0x60, [0x08, 0x04, 0x02, 0x00, 0x00, 0x00, 0x00, 0x00]),
  (0x61, [0x00, 0x00, 0x0E, 0x01, 0x0F, 0x11, 0x0F, 0x00]),
  (0x62, [0x10, 0x10, 0x1E, 0x11, 0x11, 0x11, 0x1E, 0x00]),
  (0x63, [0x00, 0x00, 0x0E, 0x11, 0x10, 0x11, 0x0E, 0x00]),
  (0x64, [0x01, 0x01, 0x0F, 0x11, 0x11, 0x11, 0x0F, 0x00]),
  (0x65, [0x00, 0x00, 0x0E, 0x11, 0x1F, 0x10, 0x0E, 0x00]),
  (0x66, [0x06, 0x09, 0x08, 0x1C, 0x08, 0x08, 0x08, 0x00]),
  (0x67, [0x00, 0x0F, 0x11, 0x11, 0x0F, 0x01, 0x0E, 0x00]),
  (0x68, [0x10, 0x10, 0x1E, 0x11, 0x11, 0x11, 0x11, 0x00]),
  (0x69, [0x04, 0x00, 0x0C, 0x04, 0x04, 0x04, 0x0E, 0x00]),
  (0x6A, [0x02, 0x00, 0x06, 0x02, 0x02, 0x12, 0x12, 0x0C]),
  (0x6B, [0x10, 0x10, 0x11, 0x12, 0x1C, 0x12, 0x11, 0x00]),
  (0x6C, [0x0C, 0x04, 0x04, 0x04, 0x04, 0x04, 0x0E, 0x00]),
  (0x6D, [0x00, 0x00, 0x1A, 0x15, 0x15, 0x15, 0x15, 0x00]),
  (0x6E, [0x00, 0x00, 0x1E, 0x11, 0x11, 0x11, 0x11, 0x00]),
  (0x6F, [0x00, 0x00, 0x0E, 0x11, 0x11, 0x11, 0x0E, 0x00]),
  (0x70, [0x00, 0x00, 0x0F, 0x11, 0x11, 0x0F, 0x10, 0x10]),
  (0x71, [0x00, 0x00, 0x0F, 0x11, 0x11, 0x0F, 0x01, 0x01]),
  (0x72, [0x00, 0x00, 0x0B, 0x0C, 0x08, 0x08, 0x08, 0x00]),
  (0x73, [0x00, 0x00, 0x0F, 0x10, 0x0E, 0x01, 0x1E, 0x00]),
  (0x74, [0x04, 0x04, 0x0E, 0x04, 0x04, 0x04, 0x03, 0x00]),
  (0x75, [0x00, 0x00, 0x11, 0x11, 0x11, 0x11, 0x0F, 0x00]),
  (0x76, [0x00, 0x00, 0x11, 0x11, 0x11, 0x0A, 0x04, 0x00]),
  (0x77, [0x00, 0x00, 0x11, 0x11, 0x15, 0x15, 0x0A, 0x00]),
  (0x78, [0x00, 0x00, 0x11, 0x0A, 0x04, 0x0A, 0x11, 0x00]),
  (0x79, [0x00, 0x00, 0x11, 0x11, 0x0F, 0x01, 0x0E, 0x00]),
  (0x7A, [0x00, 0x00, 0x1F, 0x02, 0x04, 0x08, 0x1F, 0x00]),
  (0x7B, [0x02, 0x04, 0x04, 0x08, 0x04, 0x04, 0x02, 0x00]),
  (0x7C, [0x04, 0x04, 0x04, 0x00, 0x04, 0x04, 0x04, 0x00]),
  (0x7D, [0x08, 0x04, 0x04, 0x02, 0x04, 0x04, 0x08, 0x00]),
  (0x7E, [0x00, 0x00, 0x0A, 0x15, 0x00, 0x00, 0x00, 0x00]),
  (0x7F, [0x00, 0x00, 0x00, 0x00, 0x00, 0x00, 0x00, 0x00])]

/-- `self.cgrom.get(key, [0x00] * 8)`: dictionary lookup with the blank glyph
as default.  The dictionary's keys are ints, so a `str` key always misses. -/
def cgromGet (v : PyVal) : List Int :=
  match v with
  | .int n => (cgrom.lookup n).getD (List.replicate 8 0)
  | .str _ => List.replicate 8 0

/-- `__init__(segments, lines, ...)`: the controller-state initialisation
("Controls" block).  The grid starts as `lines × segments` cells of
`[0x00] * cols` with the default `cols = 5`. -/
def init (segments lines : Nat) : HD44780 where
  segments := segments
  lines := lines
  ddram := List.replicate 80 (.int 0x00)
  row_visible_address := [0x00, 0x28, 0x14, 0x40]
  ddram_pointer := 0x00
  display_on := false
  cursor_ptr := (0x00, 0x00)
  cursor_active := false
  cursor_visible := false
  cursor_blinking := false
  entry_mode_dir := true
  entry_mode_shift := false
  grid := List.replicate lines (List.replicate segments (List.replicate 5 0x00))
  fs_flags := none

/-- `map_ddram`: for each visible `x < lines`, `y < segments`, set
`grid[x][y] = cgrom.get(ddram[(row_visible_address[x] + y) % 80], blank)`.
The Python loop overwrites every cell of the `lines × segments` grid in
place; rebuilding the grid over the same index ranges is the same map. -/
def map_ddram (s : HD44780) : HD44780 :=
  { s with grid :=
      (List.range s.lines).map fun (x : Nat) =>
        (List.range s.segments).map fun (y : Nat) =>
          cgromGet (s.ddram.getD ((s.row_visible_address.getD x 0 + (y : Int)) % 80).toNat (.int 0)) }

/-- `set_cursor_ptr`: derive `cursor_ptr` from the DDRAM pointer.  For one
line, row 0 and `pointer - row_visible_address[0]`.  For more lines, the loop
over all four table entries leaves the LAST entry (in table order) whose
value is `≤ pointer` in `cursor_ptr`. -/
def set_cursor_ptr (s : HD44780) : HD44780 :=
  if s.lines = 1 then
    { s with cursor_ptr := (0x00, s.ddram_pointer - s.row_visible_address.getD 0 0) }
  else if s.lines > 1 then
    { s with cursor_ptr :=
        ((List.range s.row_visible_address.length).foldl
          (fun cp x =>
            if s.ddram_pointer ≥ s.row_visible_address.getD x 0 then
              ((x : Int), s.ddram_pointer - s.row_visible_address.getD x 0)
            else cp)
          s.cursor_ptr) }
  else s

/-- `update_entry_mode`: pointer `+= 1` (or `-= 1`), `%= 80`; if
`entry_mode_shift`, every `row_visible_address[x]` `+= 1` (or `-= 1`),
`%= 80` (the per-element loop is the map over the table). -/
def update_entry_mode (s : HD44780) : HD44780 :=
  let p := (if s.entry_mode_dir then s.ddram_pointer + 1 else s.ddram_pointer - 1) % 80
  if s.entry_mode_shift then
    if s.entry_mode_dir then
      { s with ddram_pointer := p,
               row_visible_address := s.row_visible_address.map fun a => (a + 1) % 80 }
    else
      { s with ddram_pointer := p,
               row_visible_address := s.row_visible_address.map fun a => (a - 1) % 80 }
  else
    { s with ddram_pointer := p }

/-- `shift_display(display_shift, shift_right)`: with `display_shift`, every
table entry `-= 1` (shift right) or `+= 1` (shift left), `%= 80`; otherwise
the pointer `+= 1` / `-= 1`, `%= 80`. -/
def shift_display (s : HD44780) (display_shift shift_right : Bool) : HD44780 :=
  if display_shift then
    if shift_right then
      { s with row_visible_address := s.row_visible_address.map fun a => (a - 1) % 80 }
    else
      { s with row_visible_address := s.row_visible_address.map fun a => (a + 1) % 80 }
  else
    { s with ddram_pointer :=
        (if shift_right then s.ddram_pointer + 1 else s.ddram_pointer - 1) % 80 }

/-- `clear`: `self.ddram = [0x20] * 80`.  (It touches nothing else.) -/
def clear (s : HD44780) : HD44780 :=
  { s with ddram := List.replicate 80 (.int 0x20) }

/-- `return_home`: pointer `:= 0`, table back to `[0x00, 0x28, 0x14, 0x40]`. -/
def return_home (s : HD44780) : HD44780 :=
  { s with ddram_pointer := 0x00, row_visible_address := [0x00, 0x28, 0x14, 0x40] }

/-- `entry_mode_set(increment, shift)`. -/
def entry_mode_set (s : HD44780) (increment shift : Bool) : HD44780 :=
  { s with entry_mode_dir := increment, entry_mode_shift := shift }

/-- `display_control(display, cursor, blink)`. -/
def display_control (s : HD44780) (display cursor blink : Bool) : HD44780 :=
  { s with display_on := display, cursor_active := cursor,
           cursor_visible := cursor, cursor_blinking := blink }

/-- `cursor_control(display_shift, shift_right)`: delegates to
`shift_display`. -/
def cursor_control (s : HD44780) (display_shift shift_right : Bool) : HD44780 :=
  shift_display s display_shift shift_right

/-- `function_set(eight_bit_mode, two_lines, font_5x10)`: records the three
flags (modelled as one `Option` triple). -/
def function_set (s : HD44780) (eight_bit_mode two_lines font_5x10 : Bool) : HD44780 :=
  { s with fs_flags := some (eight_bit_mode, two_lines, font_5x10) }

/-- `set_ddram_addr(addr)`: `self.ddram_pointer = addr % 80`. -/
def set_ddram_addr (s : HD44780) (addr : Int) : HD44780 :=
  { s with ddram_pointer := addr % 80 }

/-- `write_data(data)`: `self.ddram[self.ddram_pointer] = data[0]`, then
`update_entry_mode()`.  Subscripting evaluates first: an `int` raises
`TypeError`, an empty `str` raises `IndexError`, before any mutation;
otherwise the one-character string `data[0]` is stored.  (`ddram_pointer`
is always in `[0, 80)` after any mutation, so Python negative indexing is
unreachable and `List.set` at `toNat` is exact.) -/
def write_data (s : HD44780) (data : PyVal) : Except (PyErr × HD44780) HD44780 :=
  match data with
  | .int _ => .error (.typeError, s)
  | .str t =>
    match t.toList with
    | [] => .error (.indexError, s)
    | ch :: _ =>
      .ok (update_entry_mode
        { s with ddram := s.ddram.set s.ddram_pointer.toNat (.str (String.mk [ch])) })

/-- `read_data()`: `data = self.ddram[self.ddram_pointer]`, then
`update_entry_mode()`, then return `data`. -/
def read_data (s : HD44780) : PyVal × HD44780 :=
  (s.ddram.getD s.ddram_pointer.toNat (.int 0), update_entry_mode s)

/-- `command(rs, rw, db)`.  `rs == 1`: data register — read returns
`read_data() & 0xFF` (a `TypeError` if the cell holds a `str`, raised after
`read_data` has already advanced the pointer), write calls `write_data(db)`.
`rs != 1, rw == 1`: busy-flag read, returns `0x00`.  Otherwise the
instruction byte is decoded by the `if dbl[7] / elif dbl[6] / ...` cascade
over `dbl[i] = (db_ >> i) & 0x1` — exactly one branch runs — and the
all-zero byte raises `Warning("Illegal Instruction")`.  The error carries
the state as mutated up to the raise (for these errors: unmutated, except
the read path's pointer advance). -/
def command (s : HD44780) (rs rw : Nat) (db : PyVal) :
    Except (PyErr × HD44780) (HD44780 × Option Int) :=
  if rs == 1 then
    if rw == 1 then
      let (data, s') := read_data s
      match data with
      | .int n => .ok (s', some (n % 256))
      | .str _ => .error (.typeError, s')
    else
      (write_data s db).map fun s' => (s', none)
  else
    if rw == 1 then
      .ok (s, some 0x00)
    else
      match db with
      | .str _ => .error (.typeError, s)
      | .int db_ =>
        if pybit db_ 7 != 0 then .ok (set_ddram_addr s db_, none)
        else if pybit db_ 6 != 0 then .ok (s, none)
        else if pybit db_ 5 != 0 then
          .ok (function_set s (pybit db_ 4 != 0) (pybit db_ 3 != 0) (pybit db_ 2 != 0), none)
        else if pybit db_ 4 != 0 then
          .ok (cursor_control s (pybit db_ 3 != 0) (pybit db_ 2 != 0), none)
        else if pybit db_ 3 != 0 then
          .ok (display_control s (pybit db_ 2 != 0) (pybit db_ 1 != 0) (pybit db_ 0 != 0), none)
        else if pybit db_ 2 != 0 then
          .ok (entry_mode_set s (pybit db_ 1 != 0) (pybit db_ 0 != 0), none)
        else if pybit db_ 1 != 0 then .ok (return_home s, none)
        else if pybit db_ 0 != 0 then .ok (clear s, none)
        else .error (.illegalInstruction, s)

/-- Index of the most-significant set bit of a byte, by descending scan
(7 for `b ≥ 128` down to 0; 0 also for `b = 0`, a case the dispatch
comparison below excludes by hypothesis). -/
def msb8 (b : Nat) : Nat :=
  if b.testBit 7 then 7
  else if b.testBit 6 then 6
  else if b.testBit 5 then 5
  else if b.testBit 4 then 4
  else if b.testBit 3 then 3
  else if b.testBit 2 then 2
  else if b.testBit 1 then 1
  else 0

/-- The instruction dispatch table as the spec states it (§4.3): the
operation is named by the most-significant set bit of the byte, and the
bits below it are that operation's parameters. -/
def dispatch_by_highest_bit (s : HD44780) (b : Nat) :
    Except (PyErr × HD44780) (HD44780 × Option Int) :=
  match msb8 b with
  | 7 => .ok (set_ddram_addr s (b : Int), none)
  | 6 => .ok (s, none)
  | 5 => .ok (function_set s (b.testBit 4) (b.testBit 3) (b.testBit 2), none)
  | 4 => .ok (cursor_control s (b.testBit 3) (b.testBit 2), none)
  | 3 => .ok (display_control s (b.testBit 2) (b.testBit 1) (b.testBit 0), none)
  | 2 => .ok (entry_mode_set s (b.testBit 1) (b.testBit 0), none)
  | 1 => .ok (return_home s, none)
  | _ => .ok (clear s, none)

/-- A default-constructed instance, `HD44780()` (8 segments, 1 line). -/
def hd0 : HD44780 := init 8 1

/-- `HD44780(lines=2, segments=16)`, the 2-line display of the spec's
scenarios. -/
def hd2x16 : HD44780 := init 16 2

/-- The state after `set_ddram_addr(40)` then `write_data('A')` on a
2-line display (the write succeeds, so the `getD` default is never used). -/
def c6_state : HD44780 :=
  (write_data (set_ddram_addr hd2x16 40) (.str "A")).toOption.getD hd2x16

/-- A state about to wrap: pointer 79, increment mode, entry-mode shift
enabled. -/
def wrap_state : HD44780 :=
  { hd0 with ddram_pointer := 79, entry_mode_shift := true }

end HD44780

section Helpers

/-- Indexing a map over `List.range`: the `getD` at `i < n` is `f i`. -/
theorem getD_map_range {α : Type} (f : Nat → α) {n i : Nat} (h : i < n) (d : α) :
    ((List.range n).map f).getD i d = f i := by
  simp [List.getD_eq_getElem?_getD, List.getElem?_map, List.getElem?_range h]

/-- Indexing a `replicate` below its length gives the replicated element. -/
theorem getD_replicate {α : Type} (a d : α) {n i : Nat} (h : i < n) :
    (List.replicate n a).getD i d = a := by
  simp [List.getD_eq_getElem?_getD, List.getElem?_replicate, h]

/-- `emod 80` of any integer, cast to `Nat`, is below 80. -/
theorem emod80_toNat_lt (a : Int) : (a % 80).toNat < 80 := by
  have h1 := Int.emod_nonneg a (by norm_num : (80 : Int) ≠ 0)
  have h2 := Int.emod_lt_of_pos a (by norm_num : (0 : Int) < 80)
  omega

end Helpers

namespace HD44780

/-- C1: for every state and every instruction byte `0 < b < 256`,
`command(0, 0, b)` takes exactly the branch of the most-significant set bit
of `b` — in particular a byte with exactly one bit set dispatches to that
bit's operation (bit 7 `set_ddram_addr`, bit 6 CGRAM address select (inert),
bit 5 `function_set`, bit 4 `cursor_control`, bit 3 `display_control`,
bit 2 `entry_mode_set`, bit 1 `return_home`, bit 0 `clear`), and a byte
with several bits set fires only the highest bit's branch. -/
theorem command_dispatches_by_highest_set_bit (s : HD44780) (b : Nat)
    (h0 : 0 < b) (h256 : b < 256) :
    command s 0 0 (.int b) = dispatch_by_highest_bit s b := by
  interval_cases b <;> rfl

/-- Witness for C1 at the two-bits byte `0x34` (bits 5, 4, 2 set: only the
Function Set branch of bit 5 fires) on a default-constructed instance. -/
theorem command_dispatches_by_highest_set_bit_witness :
    (0 : Nat) < 0x34 ∧ (0x34 : Nat) < 256 ∧
    command hd0 0 0 (.int 0x34) = dispatch_by_highest_bit hd0 0x34 :=
  ⟨by decide, by decide,
    command_dispatches_by_highest_set_bit hd0 0x34 (by decide) (by decide)⟩

/-- C2 (code evaluated at the failing input): a data write `command(1, 0, c)`
with the data byte `c = 0x48` raises `TypeError` (the code subscripts its
argument, `data[0]`) and stores nothing; with the string `'H'` that the
repository's own test passes, it stores the one-character string `'H'`
itself at the old pointer, not the byte `ord('H') = 0x48` that the test
asserts (`ddram[0] == ord('H')`). -/
theorem write_data_subscripts_its_argument :
    command hd0 1 0 (.int 0x48) = .error (.typeError, hd0)
  ∧ (write_data hd0 (.str "H")).toOption.map (fun s => s.ddram.getD 0 (.int 0)) = some (.str "H")
  ∧ PyVal.str "H" ≠ PyVal.int 0x48 :=
  ⟨rfl, by decide, by decide⟩

/-- C3: `update_entry_mode` (advance) sets the pointer to `(pointer + 1) % 80`
when `increment` is true and `(pointer - 1) % 80` otherwise — in particular
pointer 79 with increment wraps to 0 — and when the entry-mode shift flag is
on, the same call shifts every Row-Window Table entry by the same signed
amount mod 80; with the flag off the table is unchanged. -/
theorem update_entry_mode_advances_pointer_and_window (s : HD44780) :
    (s.entry_mode_dir = true → (update_entry_mode s).ddram_pointer = (s.ddram_pointer + 1) % 80)
  ∧ (s.entry_mode_dir = false → (update_entry_mode s).ddram_pointer = (s.ddram_pointer - 1) % 80)
  ∧ (s.ddram_pointer = 79 → s.entry_mode_dir = true → (update_entry_mode s).ddram_pointer = 0)
  ∧ (s.entry_mode_shift = true →
      (update_entry_mode s).row_visible_address =
        s.row_visible_address.map fun a => (a + if s.entry_mode_dir then 1 else -1) % 80)
  ∧ (s.entry_mode_shift = false →
      (update_entry_mode s).row_visible_address = s.row_visible_address) := by
  cases hd : s.entry_mode_dir <;> cases hs : s.entry_mode_shift <;>
    simp [update_entry_mode, hd, hs, Int.sub_eq_add_neg] <;> omega

/-- Witness for C3 at the wrap state (pointer 79, increment, shift on):
one advance yields pointer 0 and table `[1, 41, 21, 65]`. -/
theorem update_entry_mode_advances_pointer_and_window_witness :
    (update_entry_mode wrap_state).ddram_pointer = 0 ∧
    (update_entry_mode wrap_state).row_visible_address = [1, 41, 21, 65] := by
  have h := update_entry_mode_advances_pointer_and_window wrap_state
  exact ⟨h.2.2.1 rfl rfl, (h.2.2.2.1 rfl).trans (by decide)⟩

/-- C4: `cursor_control(display_shift=true, shift_right=true)` decrements
every Row-Window Table entry by 1 mod 80, `shift_right=false` increments
every entry by 1 mod 80 (all entries move together via the same map, the
pointer untouched); `display_shift=false` moves the pointer by +1
(`shift_right`) or −1 mod 80 without touching the table. -/
theorem cursor_control_shift_directions (s : HD44780) (b : Bool) :
    (cursor_control s true true).row_visible_address
        = s.row_visible_address.map (fun a => (a - 1) % 80)
  ∧ (cursor_control s true false).row_visible_address
        = s.row_visible_address.map (fun a => (a + 1) % 80)
  ∧ (cursor_control s true b).ddram_pointer = s.ddram_pointer
  ∧ (cursor_control s false true).ddram_pointer = (s.ddram_pointer + 1) % 80
  ∧ (cursor_control s false false).ddram_pointer = (s.ddram_pointer - 1) % 80
  ∧ (cursor_control s false b).row_visible_address = s.row_visible_address := by
  cases b <;> exact ⟨rfl, rfl, rfl, rfl, rfl, rfl⟩

/-- C5: `command(0, 0, 0)` raises the distinct illegal-instruction condition
(`Warning("Illegal Instruction")`) with the state exactly as before the call
— no DDRAM, pointer, table or flag mutation — so the instance remains usable
for subsequent calls on that same unchanged state. -/
theorem command_zero_byte_illegal_instruction (s : HD44780) :
    command s 0 0 (.int 0) = .error (.illegalInstruction, s) := rfl

/-- C6 counterexample: on a 2-line display, after `set_ddram_addr(40)` and
`write_data('A')` the derived cursor position is NOT row 1, column 0: the
scan over the table `[0, 40, 20, 64]` keeps the last entry `≤ pointer`
(41), which is entry 2 (value 20). -/
theorem c6_cursor_not_row1_col0 :
    (set_cursor_ptr c6_state).cursor_ptr ≠ ((1 : Int), (0 : Int)) := by decide

/-- C6 amended: on a 2-line display with the canonical table, after
`set_ddram_addr(40)` and `write_data('A')` the derived cursor position
resolves to row 2, column 21 (pointer 41 minus table entry 20). -/
theorem c6_cursor_row2_col21 :
    (set_cursor_ptr c6_state).cursor_ptr = ((2 : Int), (21 : Int)) := by decide

/-- C7: after `clear()` every DDRAM cell is 0x20, the CGROM glyph for 0x20
is all-zero, and the projection `map_ddram` therefore puts the all-zero
blank glyph at every visible position. -/
theorem clear_fills_ddram_with_space_and_projects_blank (s : HD44780) (x y : Nat)
    (hx : x < s.lines) (hy : y < s.segments)
    (_hxr : x < s.row_visible_address.length) :
    (clear s).ddram = List.replicate 80 (.int 0x20)
  ∧ cgromGet (.int 0x20) = List.replicate 8 0
  ∧ ((map_ddram (clear s)).grid.getD x []).getD y [] = List.replicate 8 0 := by
  refine ⟨rfl, rfl, ?_⟩
  simp only [map_ddram, clear]
  rw [getD_map_range _ hx, getD_map_range _ hy, getD_replicate _ _ (emod80_toNat_lt _)]
  rfl

/-- Witness for C7: the 2×16 display, visible position (1, 3). -/
theorem clear_fills_ddram_with_space_and_projects_blank_witness :
    (clear hd2x16).ddram = List.replicate 80 (.int 0x20)
  ∧ cgromGet (.int 0x20) = List.replicate 8 0
  ∧ ((map_ddram (clear hd2x16)).grid.getD 1 []).getD 3 [] = List.replicate 8 0 :=
  clear_fills_ddram_with_space_and_projects_blank hd2x16 1 3 (by decide) (by decide) (by decide)

/-- C8: after `return_home()` the pointer is 0 and the Row-Window Table is
the canonical `[0, 40, 20, 64]` (0x00, 0x28, 0x14, 0x40), from any state. -/
theorem return_home_resets_pointer_and_window (s : HD44780) :
    (return_home s).ddram_pointer = 0 ∧ (return_home s).row_visible_address = [0, 40, 20, 64] :=
  ⟨rfl, rfl⟩

/-- C9 (code evaluated at the failing input): `clear()` after one left
display-shift leaves the Row-Window Table at `[1, 41, 21, 65]` — it does
not restore the canonical `[0, 40, 20, 64]`, contradicting its own
docstring ("resets the cursor to the home position"). -/
theorem clear_leaves_row_window_table_unchanged :
    (clear (cursor_control hd0 true false)).row_visible_address = [1, 41, 21, 65]
  ∧ ([1, 41, 21, 65] : List Int) ≠ [0, 40, 20, 64] :=
  ⟨by decide, by decide⟩

/-- C10: for every visible `x < lines`, `y < segments`, the projected grid
cell is the CGROM glyph (with blank default) of the code stored at DDRAM
address `(RowWindowTable[x] + y) % 80`; an unmapped code gives the all-zero
blank glyph; and `map_ddram` mutates nothing but the grid — DDRAM, pointer,
table and every flag are unchanged. -/
theorem map_ddram_projection_formula (s : HD44780) (x y : Nat)
    (hx : x < s.lines) (hy : y < s.segments)
    (_hxr : x < s.row_visible_address.length) :
    ((map_ddram s).grid.getD x []).getD y []
      = cgromGet (s.ddram.getD ((s.row_visible_address.getD x 0 + (y : Int)) % 80).toNat (.int 0))
  ∧ (∀ code : Int,
      s.ddram.getD ((s.row_visible_address.getD x 0 + (y : Int)) % 80).toNat (.int 0) = .int code →
      cgrom.lookup code = none →
      ((map_ddram s).grid.getD x []).getD y [] = List.replicate 8 0)
  ∧ (map_ddram s).ddram = s.ddram
  ∧ (map_ddram s).ddram_pointer = s.ddram_pointer
  ∧ (map_ddram s).row_visible_address = s.row_visible_address
  ∧ (map_ddram s).display_on = s.display_on
  ∧ (map_ddram s).cursor_ptr = s.cursor_ptr
  ∧ (map_ddram s).cursor_active = s.cursor_active
  ∧ (map_ddram s).cursor_visible = s.cursor_visible
  ∧ (map_ddram s).cursor_blinking = s.cursor_blinking
  ∧ (map_ddram s).entry_mode_dir = s.entry_mode_dir
  ∧ (map_ddram s).entry_mode_shift = s.entry_mode_shift
  ∧ (map_ddram s).fs_flags = s.fs_flags := by
  refine ⟨?_, ?_, rfl, rfl, rfl, rfl, rfl, rfl, rfl, rfl, rfl, rfl, rfl⟩
  · simp only [map_ddram]
    rw [getD_map_range _ hx, getD_map_range _ hy]
  · intro code hcode hnone
    simp only [map_ddram]
    rw [getD_map_range _ hx, getD_map_range _ hy, hcode]
    simp [cgromGet, hnone]

/-- Witness for C10: on the fresh 2×16 display every cell holds 0x00, a
code unmapped in CGROM, so position (0, 5) projects to the blank glyph. -/
theorem map_ddram_projection_formula_witness :
    ((map_ddram hd2x16).grid.getD 0 []).getD 5 [] = List.replicate 8 0 := by
  have h := map_ddram_projection_formula hd2x16 0 5 (by decide) (by decide) (by decide)
  exact h.2.1 0 (by decide) (by decide)

end HD44780
